import Mathlib

/-!
Shallow embedding of `src/python-ai/simple_receipt_parser.py` (class
`SimpleBedrockReceiptParser`): the document-to-structured-data pipeline that
turns receipt bytes into a structured asset record.

External effects are modelled as oracle functions bundled in `Env`:
* `fitzPages` stands for `fitz.open` plus the page loop of
  `extract_text_from_pdf` (an exception anywhere in that `try` block is an
  `Except.error`);
* `b64encode` stands for `base64.b64encode(...).decode('utf-8')`;
* `invokeModel` stands for `bedrock_client.invoke_model` composed with
  `json.loads(response['body'].read())` (a transport or decode exception is an
  `Except.error`);
* `jsonLoads` stands for `json.loads` on the model's textual reply (`none` is
  `json.JSONDecodeError`).

Python/JSON values are modelled by the inductive `PyVal`; `Except String`
models raised exceptions, and each `try/except` of the source is an explicit
`match` on the corresponding `Except` value.
-/

/-- JSON/Python values as they occur in this pipeline: `None`, booleans,
numbers, strings, lists and string-keyed dicts (JSON object keys are always
strings). Numbers are carried as integers; no claim inspects non-integral
numerics. -/
inductive PyVal where
  | none : PyVal
  | bool (b : Bool) : PyVal
  | int (n : Int) : PyVal
  | str (s : String) : PyVal
  | list (xs : List PyVal) : PyVal
  | dict (kvs : List (String × PyVal)) : PyVal

/-- Structural equality on `PyVal`, modelling Python `==` on JSON values. -/
def pyBeq : PyVal → PyVal → Bool
  | .none, .none => true
  | .bool a, .bool b => a == b
  | .int a, .int b => a == b
  | .str a, .str b => a == b
  | .list [], .list [] => true
  | .list (a :: as), .list (b :: bs) => pyBeq a b && pyBeq (.list as) (.list bs)
  | .dict [], .dict [] => true
  | .dict ((ka, va) :: as), .dict ((kb, vb) :: bs) =>
      ka == kb && pyBeq va vb && pyBeq (.dict as) (.dict bs)
  | _, _ => false

/-- Whether `needle` matches at the head of `hay` (character lists). -/
def leadMatch : List Char → List Char → Bool
  | [], _ => true
  | _ :: _, [] => false
  | a :: as, b :: bs => a == b && leadMatch as bs

/-- The backtick character, written via its code point. -/
def btick : Char := Char.ofNat 96

/-- Python `s.lower()` (ASCII case folding, which covers the modelled
inputs). -/
def pyLower (s : String) : String := ⟨s.data.map Char.toLower⟩

/-- Python `s.startswith(pre)`. -/
def pyStartsWith (s pre : String) : Bool := leadMatch pre.data s.data

/-- Python `s.endswith(suffix)`. -/
def pyEndsWith (s suffix : String) : Bool := leadMatch suffix.data.reverse s.data.reverse

/-- Python `s.strip()`: drop whitespace from both ends. -/
def pyStrip (s : String) : String :=
  ⟨((s.data.dropWhile Char.isWhitespace).reverse.dropWhile Char.isWhitespace).reverse⟩

/-- Python `s[:n]` for `n ≥ 0`. -/
def pyTake (s : String) (n : Nat) : String := ⟨s.data.take n⟩

/-- Python `s[n:]` for `n ≥ 0`. -/
def pyDrop (s : String) (n : Nat) : String := ⟨s.data.drop n⟩

/-- Python `s[:-n]` for `n > 0` (clamping to the empty string when `s` is
shorter than `n`, as Python does). -/
def pyDropRight (s : String) (n : Nat) : String := ⟨s.data.take (s.data.length - n)⟩

/-- Python `c in s` for a single character `c`. -/
def pyHasChar (s : String) (c : Char) : Bool := s.data.any (fun a => a == c)

/-- Python `s.split(sep)[-1]`: the segment after the last separator (the
whole string when the separator is absent). -/
def lastSplitSeg (s : String) (sep : Char) : String :=
  ⟨(s.data.reverse.takeWhile (fun c => c != sep)).reverse⟩

/-- Whether `needle` occurs contiguously anywhere in `hay`, modelling Python
substring membership `needle in hay` for strings. -/
def strFind (needle : List Char) : List Char → Bool
  | [] => needle.isEmpty
  | c :: rest => leadMatch needle (c :: rest) || strFind needle rest

/-- Python `key in v` for a string `key`: key membership for dicts, element
membership for lists, substring for strings; a `TypeError` otherwise. -/
def pyContains (key : String) : PyVal → Except String Bool
  | .dict kvs => .ok (kvs.any (fun kv => kv.1 == key))
  | .list xs => .ok (xs.any (fun v => pyBeq v (.str key)))
  | .str s => .ok (strFind key.data s.data)
  | _ => .error "TypeError: argument is not iterable"

/-- Python `v[key]` for a string `key`: dict lookup (`KeyError` when absent);
a `TypeError` for strings, lists and scalars. -/
def pyItem (key : String) : PyVal → Except String PyVal
  | .dict kvs =>
      match kvs.find? (fun kv => kv.1 == key) with
      | some kv => .ok kv.2
      | Option.none => .error ("KeyError: " ++ key)
  | _ => .error "TypeError: indices must be integers"

/-- Python `v[i]` for a natural index: list indexing (`IndexError` out of
range), single-character string indexing, `KeyError` for a JSON dict (whose
keys are all strings), `TypeError` for scalars. -/
def pyIndex (i : Nat) : PyVal → Except String PyVal
  | .list xs =>
      match xs.get? i with
      | some v => .ok v
      | Option.none => .error "IndexError: list index out of range"
  | .str s =>
      match s.data.get? i with
      | some c => .ok (.str (String.singleton c))
      | Option.none => .error "IndexError: string index out of range"
  | .dict _ => .error "KeyError: 0"
  | _ => .error "TypeError: object is not subscriptable"

/-- Lookup of a string key in a `PyVal` that is a dict; `none` for any other
shape. Used only to state properties about returned records. -/
def dictGet (key : String) : PyVal → Option PyVal
  | .dict kvs => (kvs.find? (fun kv => kv.1 == key)).map Prod.snd
  | _ => Option.none

/-- Raw document bytes. -/
abbrev Bytes := List UInt8

/-- The image part of a vision request: raster format tag plus base64-encoded
bytes (source lines 83–88). -/
structure ImagePayload where
  format : String
  dataBase64 : String

/-- One `invoke_model` request body, shallowly: the model id, the single user
message's text, the optional image payload, and the inference configuration
(source lines 74–97 and 178–189). -/
structure BedrockRequest where
  modelId : String
  promptText : String
  image : Option ImagePayload
  maxTokens : Nat
  temperature : Rat

/-- Process-wide configuration plus the pipeline's external collaborators,
modelled as pure oracle functions (see the module docstring). -/
structure Env where
  model_id : String
  fitzPages : Bytes → Except String (List String)
  b64encode : Bytes → String
  invokeModel : BedrockRequest → Except String PyVal
  jsonLoads : String → Option PyVal

/-- The fixed vision-transcription instruction (source lines 63–72). -/
def visionPrompt : String :=
  "Analyze this receipt/invoice image and extract all visible text and information.
            Focus on:
            - Product/item names
            - Prices and amounts
            - Dates
            - Store/vendor information
            - Model numbers or serial numbers
            - Warranty information

            Provide all extracted text clearly formatted."

/-- The structuring instruction template (source lines 127–176); it embeds at
most the first 3000 characters of the extracted text. -/
def structuringPrompt (extracted_text : String) : String :=
  "You are an expert at analyzing receipts and invoices to extract product information. Analyze this text and extract the following information in JSON format:

REQUIRED FIELDS:
- item_name: The main product/item name (exactly as written)
- price: The total amount paid (just the number, no currency symbols)
- date: The purchase/invoice date (convert to DD.MM.YYYY format)
- vendor: The store/company/brand name
- model_number: Product model, SKU, or part number (null if not found)
- description: Brief product description
- category: Product category (see categories below)

CATEGORY DETECTION RULES:
Analyze the item name, vendor, and product details to determine the most appropriate category:

\"Electronics\" - for: phones, computers, tablets, headphones, earbuds, speakers, cameras, gaming devices, smart watches, chargers, cables, TV, monitors, keyboards, mice, electronic accessories
Examples: iPhone, AirPods, MacBook, Samsung Galaxy, PlayStation, Xbox, Apple Watch, wireless charger

\"Home Appliances\" - for: kitchen appliances, washing machines, refrigerators, microwaves, air conditioners, vacuum cleaners, small home devices
Examples: coffee maker, blender, dishwasher, iron, hair dryer, toaster

\"Vehicles\" - for: cars, motorcycles, bicycles, car parts, automotive accessories
Examples: Toyota Camry, Honda bike, car tires, brake pads

\"Furniture\" - for: chairs, tables, beds, sofas, storage furniture, office furniture
Examples: dining table, office chair, bookshelf, mattress

\"Tools & Equipment\" - for: power tools, hand tools, machinery, construction equipment, workshop items
Examples: drill, hammer, saw, toolbox, generator

\"Jewelry\" - for: rings, necklaces, watches (non-smart), precious metals, gems
Examples: gold ring, diamond necklace, luxury watch

\"Art & Collectibles\" - for: paintings, sculptures, collectible items, antiques, art supplies
Examples: artwork, vintage items, collectible cards

\"Sports & Recreation\" - for: sports equipment, gym gear, outdoor gear, games, recreational items
Examples: tennis racket, dumbbells, camping gear, board games

\"Other\" - for items that don\x27t fit the above categories

IMPORTANT:
- Look at product names like \"AirPods\", \"iPhone\", \"MacBook\" → clearly \"Electronics\"
- Look at vendor names like \"Apple\", \"Samsung\", \"Sony\" → likely \"Electronics\"
- Be intelligent about categorization based on product context
- Always choose the most specific and appropriate category

Text to analyze:
" ++ pyTake extracted_text 3000 ++ "

Return ONLY valid JSON format with all required fields. No explanations or extra text."

/-- The vision request body built by `extract_text_from_image` (source lines
74–97): the fixed prompt, the image tagged with the MIME subtype (defaulting
to `png` when the MIME string has no slash), 4000 max tokens, temperature
0.1. -/
def visionRequest (env : Env) (image_bytes : Bytes) (mime_type : String) : BedrockRequest :=
  { modelId := env.model_id
    promptText := visionPrompt
    image := some
      { format := if pyHasChar mime_type '/' then lastSplitSeg mime_type '/' else "png"
        dataBase64 := env.b64encode image_bytes }
    maxTokens := 4000
    temperature := 1/10 }

/-- The structuring request body built by `parse_receipt_text` (source lines
178–189): text-only message, 1000 max tokens, temperature 0.1. -/
def structuringRequest (env : Env) (extracted_text : String) : BedrockRequest :=
  { modelId := env.model_id
    promptText := structuringPrompt extracted_text
    image := Option.none
    maxTokens := 1000
    temperature := 1/10 }

/-- Shared response handling of both `invoke_model` call sites (source lines
111–115 and 202–207): if the decoded body has `output.message`, pull
`['output']['message']['content'][0]['text']`; if the guard is `False`,
signal the unexpected-format branch as `.ok none`; any `KeyError` /
`IndexError` / `TypeError` raised while subscripting propagates as
`.error`. A `text` leaf that is not a string is modelled as `.error` as well:
in `parse_receipt_text` that is exactly where Python raises
(`AttributeError` at `ai_response.strip()`). -/
def bedrockReplyText (response_body : PyVal) : Except String (Option String) :=
  match pyContains "output" response_body with
  | .error e => .error e
  | .ok false => .ok Option.none
  | .ok true =>
    match pyItem "output" response_body with
    | .error e => .error e
    | .ok out =>
      match pyContains "message" out with
      | .error e => .error e
      | .ok false => .ok Option.none
      | .ok true =>
        match pyItem "message" out with
        | .error e => .error e
        | .ok msg =>
          match pyItem "content" msg with
          | .error e => .error e
          | .ok content =>
            match pyIndex 0 content with
            | .error e => .error e
            | .ok first =>
              match pyItem "text" first with
              | .error e => .error e
              | .ok (.str s) => .ok (some s)
              | .ok _ => .error "AttributeError: object has no attribute strip"

/-- `extract_text_from_pdf` (source lines 42–54): concatenate the text layer
of every page in page order; any exception inside the `try` yields `""`. -/
def extract_text_from_pdf (env : Env) (pdf_bytes : Bytes) : String :=
  match env.fitzPages pdf_bytes with
  | .ok pages => String.join pages
  | .error _ => ""

/-- `extract_text_from_image` (source lines 56–122): invoke the vision model;
on the unexpected-format branch return the sentinel
`"Could not extract text from image"`; any exception yields `""`. -/
def extract_text_from_image (env : Env) (image_bytes : Bytes) (mime_type : String) : String :=
  match env.invokeModel (visionRequest env image_bytes mime_type) with
  | .error _ => ""
  | .ok response_body =>
    match bedrockReplyText response_body with
    | .error _ => ""
    | .ok Option.none => "Could not extract text from image"
    | .ok (some extracted_text) => extracted_text

/-- `_create_fallback_response` (source lines 232–243): the fixed sentinel
record. -/
def _create_fallback_response : PyVal :=
  .dict
    [("item_name", .str "Unable to extract"),
     ("price", .int 0),
     ("date", .str ""),
     ("vendor", .str "Unable to extract"),
     ("warranty_period", .none),
     ("model_number", .none),
     ("description", .str "Manual entry required"),
     ("category", .str "Other")]

/-- The code-fence cleanup of `parse_receipt_text` (source lines 212–217):
strip whitespace, drop a leading `\x60\x60\x60json` marker and a trailing
`\x60\x60\x60` marker if present, strip again. -/
def cleanResponse (ai_response : String) : String :=
  let c0 := pyStrip ai_response
  let c1 := if pyStartsWith c0 "```json" then pyDrop c0 7 else c0
  let c2 := if pyEndsWith c1 "```" then pyDropRight c1 3 else c1
  pyStrip c2

/-- `parse_receipt_text` (source lines 124–230): build the structuring
request, invoke the model, pull the reply text, clean it, decode it as JSON.
Decode failure, an unexpected response format, and any raised exception all
return the fallback record. -/
def parse_receipt_text (env : Env) (extracted_text : String) : PyVal :=
  match env.invokeModel (structuringRequest env extracted_text) with
  | .error _ => _create_fallback_response
  | .ok response_body =>
    match bedrockReplyText response_body with
    | .error _ => _create_fallback_response
    | .ok Option.none => _create_fallback_response
    | .ok (some ai_response) =>
      match env.jsonLoads (cleanResponse ai_response) with
      | some parsed_data => parsed_data
      | Option.none => _create_fallback_response

/-- The routing test of the PDF branch (source line 253). -/
def pdfRoute (filename content_type : String) : Bool :=
  content_type == "application/pdf" || pyEndsWith (pyLower filename) ".pdf"

/-- The routing test of the image branch (source line 257). -/
def imageRoute (filename content_type : String) : Bool :=
  pyStartsWith content_type "image/" ||
    [".png", ".jpg", ".jpeg", ".gif", ".bmp"].any (fun ext => pyEndsWith (pyLower filename) ext)

/-- The truncated text preview of the success envelope (source line 281):
`extracted_text[:500] + "..."` when longer than 500 characters, else the text
verbatim. -/
def makePreview (extracted_text : String) : String :=
  if extracted_text.length > 500 then pyTake extracted_text 500 ++ "..." else extracted_text

/-- The output envelope of `parse_receipt`: the returned dict has a `success`
flag, an `error` message on the failure paths, an `extracted_text` preview on
the success path, and a `data` record. -/
structure ParseResult where
  success : Bool
  error : Option String
  extracted_text : Option String
  data : PyVal

/-- The tail of `parse_receipt` once a routing branch has produced
`extracted_text` (source lines 268–283): empty text fails with the no-text
message, otherwise the structuring result is wrapped with `success: true` and
the preview. -/
def afterExtraction (env : Env) (extracted_text : String) : ParseResult :=
  if extracted_text == "" then
    { success := false
      error := some "No text could be extracted from the file"
      extracted_text := Option.none
      data := _create_fallback_response }
  else
    { success := true
      error := Option.none
      extracted_text := some (makePreview extracted_text)
      data := parse_receipt_text env extracted_text }

/-- `parse_receipt` (source lines 245–291), the orchestrator: route on
content type and filename extension, extract, then hand over to
`afterExtraction`; unsupported types fail immediately. Every stage catches
its own exceptions internally (as in the source), so the orchestrator's
blanket `except` block is not reachable from the modelled stages and the
function is total as written. -/
def parse_receipt (env : Env) (file_content : Bytes) (filename : String) (content_type : String) : ParseResult :=
  if pdfRoute filename content_type then
    afterExtraction env (extract_text_from_pdf env file_content)
  else if imageRoute filename content_type then
    afterExtraction env (extract_text_from_image env file_content content_type)
  else
    { success := false
      error := some ("Unsupported file type: " ++ content_type)
      extracted_text := Option.none
      data := _create_fallback_response }

/-- The nine category labels enumerated by the specification and by the
category-detection rules of the structuring prompt. -/
def specCategories : List String :=
  ["Electronics", "Home Appliances", "Vehicles", "Furniture", "Tools & Equipment",
   "Jewelry", "Art & Collectibles", "Sports & Recreation", "Other"]

/-- A model response body in the Nova Lite shape the source expects:
`output.message.content[0].text` holding `reply`. -/
def novaResponse (reply : String) : PyVal :=
  .dict [("output", .dict [("message", .dict [("content", .list [.dict [("text", .str reply)]])])])]

/-! ### Concrete environments used by counterexamples and witnesses -/

/-- A deterministic stub: PDF text extracts fine, the structuring model
replies `"not json"`, which no JSON decoder accepts. -/
def envNotJson : Env :=
  { model_id := "amazon.nova-lite-v1:0"
    fitzPages := fun _ => .ok ["TOTAL 19.99"]
    b64encode := fun _ => ""
    invokeModel := fun _ => .ok (novaResponse "not json")
    jsonLoads := fun _ => Option.none }

/-- A deterministic stub whose structuring reply is a JSON object with the
out-of-enumeration category `"Gadgets"`; the decoder stub decodes exactly
that object, as a real JSON decoder would. -/
def envGadget : Env :=
  { model_id := "amazon.nova-lite-v1:0"
    fitzPages := fun _ => .ok ["AirPods Pro 249.00"]
    b64encode := fun _ => ""
    invokeModel := fun _ => .ok (novaResponse "\x7b\"category\": \"Gadgets\"\x7d")
    jsonLoads := fun s =>
      if s = "\x7b\"category\": \"Gadgets\"\x7d" then some (.dict [("category", .str "Gadgets")])
      else Option.none }

/-- A stub whose inference endpoint raises on every call (transport
failure), while PDF text extraction works. -/
def envDown : Env :=
  { model_id := "amazon.nova-lite-v1:0"
    fitzPages := fun _ => .ok ["Some receipt text"]
    b64encode := fun _ => ""
    invokeModel := fun _ => .error "ConnectionError: inference endpoint unreachable"
    jsonLoads := fun _ => Option.none }

/-- A stub whose structuring reply wraps a JSON object in plain
fences (no `json` tag); the decoder stub decodes the bare object but — like
a real JSON decoder — nothing that still carries backticks. -/
def envPlainFence : Env :=
  { model_id := "amazon.nova-lite-v1:0"
    fitzPages := fun _ => .ok ["txt"]
    b64encode := fun _ => ""
    invokeModel := fun _ => .ok (novaResponse "```\n\x7b\"x\": 1\x7d\n```")
    jsonLoads := fun s =>
      if s = "\x7b\"x\": 1\x7d" then some (.dict [("x", .int 1)]) else Option.none }

/-- A stub whose structuring reply wraps a JSON object in a
`\x60\x60\x60json` fence, with a decoder stub for the bare object. -/
def envFenced : Env :=
  { model_id := "amazon.nova-lite-v1:0"
    fitzPages := fun _ => .ok ["txt"]
    b64encode := fun _ => ""
    invokeModel := fun _ => .ok (novaResponse ("```json" ++ "\x7b\"price\": 42\x7d" ++ "```"))
    jsonLoads := fun s =>
      if s = "\x7b\"price\": 42\x7d" then some (.dict [("price", .int 42)]) else Option.none }

/-- A stub whose vision response is a well-formed JSON body without the
expected `output.message` shape. -/
def envShapeless : Env :=
  { model_id := "amazon.nova-lite-v1:0"
    fitzPages := fun _ => .error "fitz unused"
    b64encode := fun _ => ""
    invokeModel := fun _ => .ok (.dict [("result", .str "transcribed text")])
    jsonLoads := fun _ => Option.none }

/-- `envDown` with a different decoder and different behaviour on text-only
(structuring) requests; it agrees with `envDown` on every request that
carries an image. -/
def envDownVaried : Env :=
  { model_id := "amazon.nova-lite-v1:0"
    fitzPages := envDown.fitzPages
    b64encode := envDown.b64encode
    invokeModel := fun req =>
      if req.image.isSome then envDown.invokeModel req else .ok (novaResponse "IGNORED")
    jsonLoads := fun _ => some (.int 7) }


/-! ### Helper lemmas shared by the claim theorems -/

/-- A Nova-shaped response always yields its reply text. -/
theorem bedrockReplyText_nova (r : String) : bedrockReplyText (novaResponse r) = .ok (some r) := rfl

/-- Unfolding `parse_receipt` on the PDF routing branch. -/
theorem parse_receipt_pdf_branch (env : Env) (f : Bytes) (fn ct : String)
    (h : pdfRoute fn ct = true) :
    parse_receipt env f fn ct = afterExtraction env (extract_text_from_pdf env f) := by
  simp [parse_receipt, h]

/-- Unfolding `parse_receipt` on the image routing branch. -/
theorem parse_receipt_image_branch (env : Env) (f : Bytes) (fn ct : String)
    (h1 : pdfRoute fn ct = false) (h2 : imageRoute fn ct = true) :
    parse_receipt env f fn ct = afterExtraction env (extract_text_from_image env f ct) := by
  simp [parse_receipt, h1, h2]

/-- Unfolding `parse_receipt` on the unsupported-type branch. -/
theorem parse_receipt_unsupported_branch (env : Env) (f : Bytes) (fn ct : String)
    (h1 : pdfRoute fn ct = false) (h2 : imageRoute fn ct = false) :
    parse_receipt env f fn ct =
      { success := false, error := some ("Unsupported file type: " ++ ct),
        extracted_text := Option.none, data := _create_fallback_response } := by
  simp [parse_receipt, h1, h2]

/-- `afterExtraction` on non-empty text gives the success envelope. -/
theorem afterExtraction_of_ne (env : Env) {t : String} (h : t ≠ "") :
    afterExtraction env t =
      { success := true, error := Option.none,
        extracted_text := some (makePreview t), data := parse_receipt_text env t } := by
  simp [afterExtraction, h]

/-- A failing `afterExtraction` result carries an error message and the
fallback record. -/
theorem afterExtraction_failure (env : Env) (t : String)
    (h : (afterExtraction env t).success = false) :
    (afterExtraction env t).error.isSome = true ∧
      (afterExtraction env t).data = _create_fallback_response := by
  by_cases he : t = ""
  · subst he; exact ⟨rfl, rfl⟩
  · rw [afterExtraction_of_ne env he] at h ⊢
    simp at h

/-- Complete case analysis of `parse_receipt_text`: either some JSON value
decoded from the cleaned model reply is returned verbatim, or the fallback
record is. -/
theorem parse_receipt_text_cases (env : Env) (t : String) :
    parse_receipt_text env t = _create_fallback_response ∨
      ∃ rb s v, env.invokeModel (structuringRequest env t) = .ok rb ∧
        bedrockReplyText rb = .ok (some s) ∧
        env.jsonLoads (cleanResponse s) = some v ∧
        parse_receipt_text env t = v := by
  cases hin : env.invokeModel (structuringRequest env t) with
  | error e => exact Or.inl (by simp [parse_receipt_text, hin])
  | ok rb =>
    cases hrep : bedrockReplyText rb with
    | error e => exact Or.inl (by simp [parse_receipt_text, hin, hrep])
    | ok os =>
      cases os with
      | none => exact Or.inl (by simp [parse_receipt_text, hin, hrep])
      | some s =>
        cases hj : env.jsonLoads (cleanResponse s) with
        | none => exact Or.inl (by simp [parse_receipt_text, hin, hrep, hj])
        | some v => exact Or.inr ⟨rb, s, v, rfl, hrep, hj, by simp [parse_receipt_text, hin, hrep, hj]⟩

/-- `makePreview` is the identity on text of at most 500 characters. -/
theorem makePreview_of_le {t : String} (h : t.length ≤ 500) : makePreview t = t := by
  unfold makePreview
  rw [if_neg (by omega)]

/-- `makePreview` truncates text longer than 500 characters. -/
theorem makePreview_of_gt {t : String} (h : 500 < t.length) :
    makePreview t = pyTake t 500 ++ "..." := by
  unfold makePreview
  rw [if_pos (by omega)]

/-- Length of a Python-style slice. -/
theorem pyTake_length (t : String) (n : Nat) : (pyTake t n).length = min n t.length := by
  show (t.data.take n).length = min n t.data.length
  exact List.length_take n t.data

/-- The preview never exceeds 503 characters. -/
theorem makePreview_length_le (t : String) : (makePreview t).length ≤ 503 := by
  by_cases h : 500 < t.length
  · rw [makePreview_of_gt h, String.length_append, pyTake_length]
    have h3 : ("..." : String).length = 3 := rfl
    have hm : min 500 t.length = 500 := Nat.min_eq_left h.le
    omega
  · rw [makePreview_of_le (by omega)]
    omega

/-- The preview of a successful `afterExtraction` on text `t` is `t`
verbatim at up to 500 characters, its first 500 characters plus the
ellipsis marker beyond that, and at most 503 characters long either way. -/
theorem afterExtraction_preview (env : Env) (t : String)
    (h : (afterExtraction env t).success = true) :
    (afterExtraction env t).extracted_text = some (makePreview t) ∧
    (t.length ≤ 500 → (afterExtraction env t).extracted_text = some t) ∧
    (500 < t.length →
      (afterExtraction env t).extracted_text = some (pyTake t 500 ++ "...")) ∧
    (makePreview t).length ≤ 503 := by
  by_cases he : t = ""
  · subst he; simp [afterExtraction] at h
  · rw [afterExtraction_of_ne env he]
    exact ⟨rfl, fun hl => by rw [makePreview_of_le hl],
      fun hl => by rw [makePreview_of_gt hl], makePreview_length_le t⟩

/-- The cleanup of a reply wrapped in a leading `\x60\x60\x60json` marker
and a trailing `\x60\x60\x60` marker is exactly the stripped inner text. -/
theorem cleanResponse_fenced (s : String) :
    cleanResponse ("```json" ++ s ++ "```") = pyStrip s := by
  cases s with
  | mk d =>
    have e1 : ("```json" ++ String.mk d ++ "```") =
        String.mk (btick :: btick :: btick :: 'j' :: 's' :: 'o' :: 'n' :: (d ++ [btick,btick,btick])) := by
      apply String.ext
      show (btick :: btick :: btick :: 'j' :: 's' :: 'o' :: 'n' :: d) ++ [btick,btick,btick] = _
      simp
    rw [e1]
    have hrev : (btick :: btick :: btick :: 'j' :: 's' :: 'o' :: 'n' :: (d ++ [btick,btick,btick])).reverse
        = btick :: btick :: btick :: (d.reverse ++ ['n','o','s','j',btick,btick,btick]) := by simp
    have hstrip0 : pyStrip (String.mk (btick :: btick :: btick :: 'j' :: 's' :: 'o' :: 'n' :: (d ++ [btick,btick,btick])))
        = String.mk (btick :: btick :: btick :: 'j' :: 's' :: 'o' :: 'n' :: (d ++ [btick,btick,btick])) := by
      unfold pyStrip
      congr 1
      rw [show List.dropWhile Char.isWhitespace
            (btick :: btick :: btick :: 'j' :: 's' :: 'o' :: 'n' :: (d ++ [btick,btick,btick]))
          = btick :: btick :: btick :: 'j' :: 's' :: 'o' :: 'n' :: (d ++ [btick,btick,btick]) from rfl]
      rw [hrev]
      rw [show List.dropWhile Char.isWhitespace
            (btick :: btick :: btick :: (d.reverse ++ ['n','o','s','j',btick,btick,btick]))
          = btick :: btick :: btick :: (d.reverse ++ ['n','o','s','j',btick,btick,btick]) from rfl]
      rw [← hrev, List.reverse_reverse]
    have h1 : pyStartsWith (String.mk (btick :: btick :: btick :: 'j' :: 's' :: 'o' :: 'n' :: (d ++ [btick,btick,btick]))) "```json" = true := rfl
    have h2 : pyDrop (String.mk (btick :: btick :: btick :: 'j' :: 's' :: 'o' :: 'n' :: (d ++ [btick,btick,btick]))) 7 = String.mk (d ++ [btick,btick,btick]) := rfl
    have hrev2 : (d ++ [btick,btick,btick]).reverse = btick :: btick :: btick :: d.reverse := by simp
    have h3 : pyEndsWith (String.mk (d ++ [btick,btick,btick])) "```" = true := by
      show leadMatch ([btick,btick,btick] : List Char).reverse (d ++ [btick,btick,btick]).reverse = true
      rw [hrev2]
      rfl
    have h4 : pyDropRight (String.mk (d ++ [btick,btick,btick])) 3 = String.mk d := by
      show String.mk ((d ++ [btick,btick,btick]).take ((d ++ [btick,btick,btick]).length - 3)) = String.mk d
      congr 1
      have hl : (d ++ [btick,btick,btick]).length - 3 = d.length := by simp
      rw [hl, List.take_left' rfl]
    unfold cleanResponse
    rw [hstrip0]
    simp only [h1, if_true, h2, h3, h4]

/-! ### The claims -/

/-- C1: as stated the claim fails on the code: `parse_receipt_text` returns
the decoded model JSON verbatim, with no validation of `category` against the
enumeration. With a model stub replying the JSON object
`\x7b"category": "Gadgets"\x7d` for a valid PDF, the returned envelope has
`success: true` and a `category` outside the nine enumerated values. -/
theorem c1_counterexample :
    (parse_receipt envGadget [] "receipt.pdf" "application/pdf").success = true ∧
    dictGet "category" (parse_receipt envGadget [] "receipt.pdf" "application/pdf").data
      = some (PyVal.str "Gadgets") ∧
    ¬ ("Gadgets" ∈ specCategories) :=
  ⟨rfl, rfl, by decide⟩

/-- C1 (amended): for valid PDF input with a non-empty text layer,
`parse_receipt` returns `success: true`, and its `data` is the structuring
result, which is either the fallback record — whose `category` is `"Other"`,
one of the nine enumerated values — or the JSON value decoded from the model
reply, returned verbatim without category validation. -/
theorem c1_category_amended (env : Env) (f : Bytes) (fn ct : String) (ps : List String)
    (hroute : pdfRoute fn ct = true)
    (hfitz : env.fitzPages f = .ok ps)
    (hne : String.join ps ≠ "") :
    (parse_receipt env f fn ct).success = true ∧
    (parse_receipt env f fn ct).data = parse_receipt_text env (String.join ps) ∧
    (parse_receipt_text env (String.join ps) = _create_fallback_response ∨
      ∃ rb s v, env.invokeModel (structuringRequest env (String.join ps)) = .ok rb ∧
        bedrockReplyText rb = .ok (some s) ∧
        env.jsonLoads (cleanResponse s) = some v ∧
        parse_receipt_text env (String.join ps) = v) ∧
    dictGet "category" _create_fallback_response = some (PyVal.str "Other") ∧
    "Other" ∈ specCategories := by
  have hext : extract_text_from_pdf env f = String.join ps := by
    simp [extract_text_from_pdf, hfitz]
  rw [parse_receipt_pdf_branch env f fn ct hroute, hext, afterExtraction_of_ne env hne]
  exact ⟨rfl, rfl, parse_receipt_text_cases env (String.join ps), rfl, by decide⟩

/-- C1 witness: the amended statement at a concrete PDF input. -/
theorem c1_witness :
    (parse_receipt envNotJson [] "receipt.pdf" "application/pdf").success = true ∧
    (parse_receipt envNotJson [] "receipt.pdf" "application/pdf").data
      = parse_receipt_text envNotJson (String.join ["TOTAL 19.99"]) ∧
    (parse_receipt_text envNotJson (String.join ["TOTAL 19.99"]) = _create_fallback_response ∨
      ∃ rb s v,
        envNotJson.invokeModel (structuringRequest envNotJson (String.join ["TOTAL 19.99"])) = .ok rb ∧
        bedrockReplyText rb = .ok (some s) ∧
        envNotJson.jsonLoads (cleanResponse s) = some v ∧
        parse_receipt_text envNotJson (String.join ["TOTAL 19.99"]) = v) ∧
    dictGet "category" _create_fallback_response = some (PyVal.str "Other") ∧
    "Other" ∈ specCategories :=
  c1_category_amended envNotJson [] "receipt.pdf" "application/pdf" ["TOTAL 19.99"]
    rfl rfl (by decide)

/-- C2: as stated the claim fails on the code: an exception raised by a
pipeline stage is caught inside that stage, not at the orchestrator
boundary. With an inference endpoint that raises on every call and a valid
PDF, the structuring stage swallows the exception and `parse_receipt`
returns `success: true` with no error message at all — not `success: false`
with the exception message. -/
theorem c2_counterexample :
    (parse_receipt envDown [] "receipt.pdf" "application/pdf").success = true ∧
    (parse_receipt envDown [] "receipt.pdf" "application/pdf").error = Option.none ∧
    (parse_receipt envDown [] "receipt.pdf" "application/pdf").data = _create_fallback_response :=
  ⟨rfl, rfl, rfl⟩

/-- C2 (amended): `parse_receipt` never raises, but stage exceptions are
absorbed inside each stage rather than converted at the orchestrator
boundary: a structuring-stage exception yields `success: true` with the
fallback record and no error message; a vision-stage exception yields empty
text and hence `success: false` with the generic no-text message (not the
causal message); and every `success: false` envelope carries an error
message and the fallback record. -/
theorem c2_exception_amended :
    (∀ (env : Env) (f : Bytes) (fn ct : String) (ps : List String) (e : String),
      pdfRoute fn ct = true →
      env.fitzPages f = .ok ps →
      String.join ps ≠ "" →
      env.invokeModel (structuringRequest env (String.join ps)) = .error e →
      parse_receipt env f fn ct =
        { success := true, error := Option.none,
          extracted_text := some (makePreview (String.join ps)),
          data := _create_fallback_response }) ∧
    (∀ (env : Env) (f : Bytes) (fn ct e : String),
      pdfRoute fn ct = false →
      imageRoute fn ct = true →
      env.invokeModel (visionRequest env f ct) = .error e →
      parse_receipt env f fn ct =
        { success := false, error := some "No text could be extracted from the file",
          extracted_text := Option.none, data := _create_fallback_response }) ∧
    (∀ (env : Env) (f : Bytes) (fn ct : String),
      (parse_receipt env f fn ct).success = false →
      (parse_receipt env f fn ct).error.isSome = true ∧
      (parse_receipt env f fn ct).data = _create_fallback_response) := by
  refine ⟨?_, ?_, ?_⟩
  · intro env f fn ct ps e hroute hfitz hne hinv
    have hext : extract_text_from_pdf env f = String.join ps := by
      simp [extract_text_from_pdf, hfitz]
    rw [parse_receipt_pdf_branch env f fn ct hroute, hext, afterExtraction_of_ne env hne]
    simp [parse_receipt_text, hinv]
  · intro env f fn ct e h1 h2 hinv
    have hext : extract_text_from_image env f ct = "" := by
      simp [extract_text_from_image, hinv]
    rw [parse_receipt_image_branch env f fn ct h1 h2, hext]
    rfl
  · intro env f fn ct h
    cases hp : pdfRoute fn ct with
    | true =>
      rw [parse_receipt_pdf_branch env f fn ct hp] at h ⊢
      exact afterExtraction_failure env _ h
    | false =>
      cases hi : imageRoute fn ct with
      | true =>
        rw [parse_receipt_image_branch env f fn ct hp hi] at h ⊢
        exact afterExtraction_failure env _ h
      | false =>
        rw [parse_receipt_unsupported_branch env f fn ct hp hi]
        exact ⟨rfl, rfl⟩

/-- C2 witness: the three amended conjuncts at concrete inputs: a
structuring-stage transport failure on a PDF, a vision-stage transport
failure on an image, and an unsupported type. -/
theorem c2_witness :
    parse_receipt envDown [] "receipt.pdf" "application/pdf" =
      { success := true, error := Option.none,
        extracted_text := some (makePreview (String.join ["Some receipt text"])),
        data := _create_fallback_response } ∧
    parse_receipt envDown [] "scan.png" "image/png" =
      { success := false, error := some "No text could be extracted from the file",
        extracted_text := Option.none, data := _create_fallback_response } ∧
    ((parse_receipt envDown [] "archive.zip" "application/zip").error.isSome = true ∧
      (parse_receipt envDown [] "archive.zip" "application/zip").data = _create_fallback_response) :=
  ⟨c2_exception_amended.1 envDown [] "receipt.pdf" "application/pdf" ["Some receipt text"]
      "ConnectionError: inference endpoint unreachable" rfl rfl (by decide) rfl,
   c2_exception_amended.2.1 envDown [] "scan.png" "image/png"
      "ConnectionError: inference endpoint unreachable" (by decide) (by decide) rfl,
   c2_exception_amended.2.2 envDown [] "archive.zip" "application/zip" rfl⟩

/-- C3: an input that routes to neither the PDF nor the image strategy: the
result is the unsupported-type failure with the fallback record and an error
string naming the content type, and it does not depend on any external
collaborator — in particular no model call influences it. -/
theorem c3_unsupported_type (env env2 : Env) (f : Bytes) (fn ct : String)
    (h1 : pdfRoute fn ct = false) (h2 : imageRoute fn ct = false) :
    parse_receipt env f fn ct =
      { success := false, error := some ("Unsupported file type: " ++ ct),
        extracted_text := Option.none, data := _create_fallback_response } ∧
    parse_receipt env2 f fn ct = parse_receipt env f fn ct := by
  refine ⟨parse_receipt_unsupported_branch env f fn ct h1 h2, ?_⟩
  rw [parse_receipt_unsupported_branch env f fn ct h1 h2,
    parse_receipt_unsupported_branch env2 f fn ct h1 h2]

/-- C3 witness: `application/zip` input under two different stub
environments. -/
theorem c3_witness :
    parse_receipt envNotJson [] "archive.zip" "application/zip" =
      { success := false, error := some ("Unsupported file type: " ++ "application/zip"),
        extracted_text := Option.none, data := _create_fallback_response } ∧
    parse_receipt envDown [] "archive.zip" "application/zip" =
      parse_receipt envNotJson [] "archive.zip" "application/zip" :=
  c3_unsupported_type envNotJson envDown [] "archive.zip" "application/zip"
    (by decide) (by decide)

/-- C4: a supported route whose extraction yields the empty string: the
result is the no-text failure with the fallback record; and the result does
not depend on the decoder or on the model's behaviour on text-only
(structuring) requests, i.e. the structuring stage is never invoked. -/
theorem c4_empty_extraction (env env2 : Env) (f : Bytes) (fn ct : String)
    (hdisj : (pdfRoute fn ct = true ∧ extract_text_from_pdf env f = "") ∨
      (pdfRoute fn ct = false ∧ imageRoute fn ct = true ∧
        extract_text_from_image env f ct = ""))
    (hfitz : env2.fitzPages = env.fitzPages)
    (hb64 : env2.b64encode = env.b64encode)
    (hmid : env2.model_id = env.model_id)
    (hagree : ∀ req : BedrockRequest, req.image.isSome = true →
      env2.invokeModel req = env.invokeModel req) :
    parse_receipt env f fn ct =
      { success := false, error := some "No text could be extracted from the file",
        extracted_text := Option.none, data := _create_fallback_response } ∧
    parse_receipt env2 f fn ct = parse_receipt env f fn ct := by
  constructor
  · rcases hdisj with ⟨hp, hext⟩ | ⟨hp, hi, hext⟩
    · rw [parse_receipt_pdf_branch env f fn ct hp, hext]; rfl
    · rw [parse_receipt_image_branch env f fn ct hp hi, hext]; rfl
  · rcases hdisj with ⟨hp, hext⟩ | ⟨hp, hi, hext⟩
    · rw [parse_receipt_pdf_branch env f fn ct hp, parse_receipt_pdf_branch env2 f fn ct hp]
      have hsame : extract_text_from_pdf env2 f = extract_text_from_pdf env f := by
        simp [extract_text_from_pdf, hfitz]
      rw [hsame, hext]
      rfl
    · rw [parse_receipt_image_branch env f fn ct hp hi,
        parse_receipt_image_branch env2 f fn ct hp hi]
      have hreq : visionRequest env2 f ct = visionRequest env f ct := by
        simp [visionRequest, hb64, hmid]
      have hsome : (visionRequest env f ct).image.isSome = true := rfl
      have hsame : extract_text_from_image env2 f ct = extract_text_from_image env f ct := by
        unfold extract_text_from_image
        rw [hreq, hagree _ hsome]
      rw [hsame, hext]
      rfl

/-- C4 witness: an image whose vision call raises (hence empty text), under
a varied environment that differs in decoder and text-only model behaviour. -/
theorem c4_witness :
    parse_receipt envDown [] "scan.png" "image/png" =
      { success := false, error := some "No text could be extracted from the file",
        extracted_text := Option.none, data := _create_fallback_response } ∧
    parse_receipt envDownVaried [] "scan.png" "image/png" =
      parse_receipt envDown [] "scan.png" "image/png" :=
  c4_empty_extraction envDown envDownVaried [] "scan.png" "image/png"
    (Or.inr ⟨by decide, by decide, rfl⟩) rfl rfl rfl
    (fun req h => by simp [envDownVaried, h])

/-- C5: any invocation on a supported route (PDF or image) whose extraction
yields non-empty text, where the structuring reply has an unexpected
top-level shape or its cleaned text does not decode as JSON: the envelope
still reports `success: true` and `data` is exactly the fallback sentinel
record. -/
theorem c5_structuring_failure (env : Env) (f : Bytes) (fn ct t : String) (rb : PyVal)
    (hroute : (pdfRoute fn ct = true ∧ extract_text_from_pdf env f = t) ∨
      (pdfRoute fn ct = false ∧ imageRoute fn ct = true ∧
        extract_text_from_image env f ct = t))
    (hne : t ≠ "")
    (hinv : env.invokeModel (structuringRequest env t) = .ok rb)
    (hbad : (∀ s, bedrockReplyText rb ≠ .ok (some s)) ∨
      (∃ s, bedrockReplyText rb = .ok (some s) ∧
        env.jsonLoads (cleanResponse s) = Option.none)) :
    parse_receipt env f fn ct =
      { success := true, error := Option.none,
        extracted_text := some (makePreview t),
        data := _create_fallback_response } := by
  have hdata : parse_receipt_text env t = _create_fallback_response := by
    cases hrep : bedrockReplyText rb with
    | error e => simp [parse_receipt_text, hinv, hrep]
    | ok os =>
      cases os with
      | none => simp [parse_receipt_text, hinv, hrep]
      | some s =>
        rcases hbad with hnone | ⟨s2, hs2, hj⟩
        · exact absurd hrep (hnone s)
        · have hss : s = s2 := by
            rw [hrep] at hs2
            injection hs2 with h
            injection h with h2
          rw [← hss] at hj
          simp [parse_receipt_text, hinv, hrep, hj]
  rcases hroute with ⟨hp, hext⟩ | ⟨hp, hi, hext⟩
  · rw [parse_receipt_pdf_branch env f fn ct hp, hext, afterExtraction_of_ne env hne, hdata]
  · rw [parse_receipt_image_branch env f fn ct hp hi, hext,
      afterExtraction_of_ne env hne, hdata]

/-- C5 witness: the `"not json"` scenario on both supported routes - the
structuring stub replies text that no JSON decoder accepts, yet
`success: true` with the exact fallback record. On the image route the
extracted text is the vision stub's transcription of the same stub reply. -/
theorem c5_witness :
    parse_receipt envNotJson [] "receipt.pdf" "application/pdf" =
      { success := true, error := Option.none,
        extracted_text := some (makePreview (String.join ["TOTAL 19.99"])),
        data := _create_fallback_response } ∧
    parse_receipt envNotJson [] "scan.png" "image/png" =
      { success := true, error := Option.none,
        extracted_text := some (makePreview "not json"),
        data := _create_fallback_response } :=
  ⟨c5_structuring_failure envNotJson [] "receipt.pdf" "application/pdf"
      (String.join ["TOTAL 19.99"]) (novaResponse "not json")
      (Or.inl ⟨rfl, rfl⟩) (by decide) rfl (Or.inr ⟨"not json", rfl, rfl⟩),
   c5_structuring_failure envNotJson [] "scan.png" "image/png"
      "not json" (novaResponse "not json")
      (Or.inr ⟨by decide, by decide, rfl⟩) (by decide) rfl
      (Or.inr ⟨"not json", rfl, rfl⟩)⟩

/-- C6: the fallback resolver is a constant with the documented sentinel
field values (it also carries a `warranty_period` of `None`). -/
theorem c6_fallback_fields :
    _create_fallback_response =
      PyVal.dict
        [("item_name", PyVal.str "Unable to extract"),
         ("price", PyVal.int 0),
         ("date", PyVal.str ""),
         ("vendor", PyVal.str "Unable to extract"),
         ("warranty_period", PyVal.none),
         ("model_number", PyVal.none),
         ("description", PyVal.str "Manual entry required"),
         ("category", PyVal.str "Other")] ∧
    dictGet "item_name" _create_fallback_response = some (PyVal.str "Unable to extract") ∧
    dictGet "vendor" _create_fallback_response = some (PyVal.str "Unable to extract") ∧
    dictGet "price" _create_fallback_response = some (PyVal.int 0) ∧
    dictGet "date" _create_fallback_response = some (PyVal.str "") ∧
    dictGet "model_number" _create_fallback_response = some PyVal.none ∧
    dictGet "description" _create_fallback_response = some (PyVal.str "Manual entry required") ∧
    dictGet "category" _create_fallback_response = some (PyVal.str "Other") :=
  ⟨rfl, rfl, rfl, rfl, rfl, rfl, rfl, rfl⟩

/-- C7: every successful envelope carries a preview of the text that the
invocation's routed extraction strategy actually produced: the extracted
text verbatim when it has at most 500 characters, its first 500 characters
plus the three-character ellipsis marker otherwise, and in either case of
length at most 503. -/
theorem c7_preview_truncation (env : Env) (f : Bytes) (fn ct t : String)
    (hroute : (pdfRoute fn ct = true ∧ extract_text_from_pdf env f = t) ∨
      (pdfRoute fn ct = false ∧ imageRoute fn ct = true ∧
        extract_text_from_image env f ct = t))
    (h : (parse_receipt env f fn ct).success = true) :
    (parse_receipt env f fn ct).extracted_text = some (makePreview t) ∧
    (t.length ≤ 500 → (parse_receipt env f fn ct).extracted_text = some t) ∧
    (500 < t.length →
      (parse_receipt env f fn ct).extracted_text = some (pyTake t 500 ++ "...")) ∧
    (makePreview t).length ≤ 503 := by
  rcases hroute with ⟨hp, hext⟩ | ⟨hp, hi, hext⟩
  · rw [parse_receipt_pdf_branch env f fn ct hp, hext] at h ⊢
    exact afterExtraction_preview env t h
  · rw [parse_receipt_image_branch env f fn ct hp hi, hext] at h ⊢
    exact afterExtraction_preview env t h

/-- C7 witness: the preview law at a concrete successful invocation whose
PDF text layer reads `"TOTAL 19.99"` - short, so shown verbatim. -/
theorem c7_witness :
    (parse_receipt envNotJson [] "receipt.pdf" "application/pdf").extracted_text
      = some (makePreview (String.join ["TOTAL 19.99"])) ∧
    ((String.join ["TOTAL 19.99"]).length ≤ 500 →
      (parse_receipt envNotJson [] "receipt.pdf" "application/pdf").extracted_text
        = some (String.join ["TOTAL 19.99"])) ∧
    (500 < (String.join ["TOTAL 19.99"]).length →
      (parse_receipt envNotJson [] "receipt.pdf" "application/pdf").extracted_text
        = some (pyTake (String.join ["TOTAL 19.99"]) 500 ++ "...")) ∧
    (makePreview (String.join ["TOTAL 19.99"])).length ≤ 503 :=
  c7_preview_truncation envNotJson [] "receipt.pdf" "application/pdf"
    (String.join ["TOTAL 19.99"]) (Or.inl ⟨rfl, rfl⟩) rfl

/-- C8: as stated the claim fails on the code: only the exact leading marker
`\x60\x60\x60json` is stripped. A reply wrapping a JSON object in plain
`\x60\x60\x60` fences keeps its leading fence after cleanup, so — under a
decoder stub that (like a real JSON decoder) accepts the bare object but
nothing carrying backticks — the wrapped object is not returned; the
fallback record is. -/
theorem c8_counterexample :
    parse_receipt_text envPlainFence "txt" = _create_fallback_response ∧
    cleanResponse "```\n\x7b\"x\": 1\x7d\n```" = "```\n\x7b\"x\": 1\x7d" ∧
    envPlainFence.jsonLoads "\x7b\"x\": 1\x7d" = some (PyVal.dict [("x", PyVal.int 1)]) ∧
    dictGet "x" (parse_receipt_text envPlainFence "txt") = Option.none :=
  ⟨rfl, rfl, rfl, rfl⟩

/-- C8 (amended): the cleanup strips a leading marker only when it is
exactly `\x60\x60\x60json` (and a trailing `\x60\x60\x60` marker when
present): a reply wrapped in both markers cleans to the stripped inner text,
and whenever the decoder accepts the cleaned text of the reply as a JSON
object, that object is returned verbatim rather than the fallback record. -/
theorem c8_fence_amended :
    (∀ (env : Env) (t r : String) (v : PyVal) (kvs : List (String × PyVal)),
      env.invokeModel (structuringRequest env t) = .ok (novaResponse r) →
      env.jsonLoads (cleanResponse r) = some v →
      v = PyVal.dict kvs →
      parse_receipt_text env t = v) ∧
    (∀ s : String, cleanResponse ("```json" ++ s ++ "```") = pyStrip s) := by
  constructor
  · intro env t r v kvs hinv hj hdict
    simp [parse_receipt_text, hinv, bedrockReplyText_nova, hj]
  · exact cleanResponse_fenced

/-- C8 witness: a reply wrapping a JSON object in a `\x60\x60\x60json`
fence is stripped, decoded and returned. -/
theorem c8_witness :
    parse_receipt_text envFenced "txt" = PyVal.dict [("price", PyVal.int 42)] ∧
    cleanResponse ("```json" ++ "\x7b\"price\": 42\x7d" ++ "```")
      = pyStrip "\x7b\"price\": 42\x7d" :=
  ⟨c8_fence_amended.1 envFenced "txt" ("```json" ++ "\x7b\"price\": 42\x7d" ++ "```")
      (PyVal.dict [("price", PyVal.int 42)]) [("price", PyVal.int 42)] rfl rfl rfl,
   c8_fence_amended.2 "\x7b\"price\": 42\x7d"⟩

/-- C9: `parse_receipt` is a pure function of its inputs and the (stubbed,
deterministic) collaborators: two invocations with identical bytes, filename
and content type against the same environment yield identical results. -/
theorem c9_idempotence (env : Env) (f : Bytes) (fn ct : String) (r1 r2 : ParseResult)
    (h1 : r1 = parse_receipt env f fn ct) (h2 : r2 = parse_receipt env f fn ct) :
    r1 = r2 := by
  rw [h1, h2]

/-- C9 witness: two invocations at a concrete input agree. -/
theorem c9_witness :
    parse_receipt envNotJson [] "photo.jpg" "image/jpeg"
      = parse_receipt envNotJson [] "photo.jpg" "image/jpeg" :=
  c9_idempotence envNotJson [] "photo.jpg" "image/jpeg" _ _ rfl rfl

/-- C10: an image input whose vision response lacks the expected
`output.message` shape: `extract_text_from_image` returns the non-empty
sentinel string, so `parse_receipt` treats it as extracted text, feeds it to
the structuring stage, and reports `success: true` instead of the empty-text
failure. -/
theorem c10_shapeless_vision (env : Env) (f : Bytes) (fn ct : String) (rb : PyVal)
    (h1 : pdfRoute fn ct = false)
    (h2 : pyStartsWith ct "image/" = true)
    (hinv : env.invokeModel (visionRequest env f ct) = .ok rb)
    (hshape : bedrockReplyText rb = .ok Option.none) :
    extract_text_from_image env f ct = "Could not extract text from image" ∧
    parse_receipt env f fn ct =
      { success := true, error := Option.none,
        extracted_text := some "Could not extract text from image",
        data := parse_receipt_text env "Could not extract text from image" } := by
  have hext : extract_text_from_image env f ct = "Could not extract text from image" := by
    simp [extract_text_from_image, hinv, hshape]
  have hi : imageRoute fn ct = true := by simp [imageRoute, h2]
  refine ⟨hext, ?_⟩
  rw [parse_receipt_image_branch env f fn ct h1 hi, hext,
    afterExtraction_of_ne env (by decide : "Could not extract text from image" ≠ "")]
  rfl

/-- C10 witness: a well-formed JSON body without `output.message` at a
concrete image input. -/
theorem c10_witness :
    extract_text_from_image envShapeless [] "image/png" = "Could not extract text from image" ∧
    parse_receipt envShapeless [] "photo.png" "image/png" =
      { success := true, error := Option.none,
        extracted_text := some "Could not extract text from image",
        data := parse_receipt_text envShapeless "Could not extract text from image" } :=
  c10_shapeless_vision envShapeless [] "photo.png" "image/png"
    (.dict [("result", .str "transcribed text")]) (by decide) rfl rfl rfl
